import Mathlib

/-!
Verification of the status/event distribution core of the `ts_mtdomegui`
repository (files `python/lsst/ts/mtdomegui/status.py`, `signals.py`,
`reporter.py`, `model.py`).

The Python code is shallowly embedded: dictionaries become association
lists over `String`, Qt signal emissions become values of an `Event`
type collected in lists, mutation of the `Status` record becomes
explicit state passing, and fallible operations (dictionary key lookup,
attribute lookup on the signal groups, list indexing) return
`Except PyErr`.  Python floats are kept symbolic (`PyFloat`): the only
float operation the embedded code performs is the radian-to-degree
conversion, which is represented by an uninterpreted constructor, and
float truthiness, for which zero-ness is preserved by that conversion.

External collaborator interfaces (the `lsst.ts.xml` enumerations, the
`ts_mtdomecom` constants and translation table) are modelled from the
interface description in the design document; each such definition is
marked in its doc string.
-/

namespace MTDomeGui

/-! ### Python dictionary helpers -/

/-- Lookup in a Python dictionary represented as an association list. -/
def dictGet (d : List (String × α)) (k : String) : Option α :=
  d.lookup k

/-- Assignment `d[k] = v` for a key that is already present: the binding is
replaced in place, preserving insertion order.  (Every embedded assignment
is guarded by a successful lookup of the same key, mirroring the source,
so the key-absent case never adds a binding here.) -/
def setKey (d : List (String × α)) (k : String) (v : α) : List (String × α) :=
  match d with
  | [] => []
  | (k2, v2) :: rest => if k2 = k then (k2, v) :: rest else (k2, v2) :: setKey rest k v

/-- Removal of a key, as done by `dict.pop`. -/
def eraseKey (d : List (String × α)) (k : String) : List (String × α) :=
  d.filter (fun kv => kv.1 != k)

/-- Python dictionary equality: same key set with equal values, independent
of insertion order (the embedded dictionaries never hold duplicate keys). -/
def pyDictEq [BEq α] (d1 d2 : List (String × α)) : Bool :=
  d1.all (fun kv => d2.lookup kv.1 == some kv.2) &&
    d2.all (fun kv => d1.lookup kv.1 == some kv.2)

/-- Keys of a dictionary, in insertion order. -/
def dictKeys (d : List (String × α)) : List String :=
  d.map (fun kv => kv.1)

/-- Semantics of Python `str.join` applied to a separator. -/
def strJoin (sep : String) : List String → String
  | [] => ""
  | [x] => x
  | x :: xs => x ++ sep ++ strJoin sep xs

/-! ### Python runtime errors and symbolic floats -/

/-- Exceptions that the embedded fragment can raise. -/
inductive PyErr
  | keyError (key : String)
  | attributeError (field : String)
  | indexError
  | typeError
  deriving DecidableEq, Repr

/-- Symbolic Python float: literals are exact rationals; the
radian-to-degree conversion of `math.degrees` is kept uninterpreted
(its exact value is irrational), recorded by the `degreesOf`
constructor.  No property proved here depends on float rounding. -/
inductive PyFloat
  | lit (q : ℚ)
  | degreesOf (x : PyFloat)
  deriving DecidableEq, Repr

/-- Truthiness of a float (`bool(x)` is `x != 0.0`); `math.degrees`
maps zero to zero and nonzero to nonzero, so truthiness passes through
the symbolic conversion. -/
def PyFloat.truthy : PyFloat → Bool
  | .lit q => q != 0
  | .degreesOf x => x.truthy

/-! ### External enumerations (collaborator interface)

All definitions in this block are modelled from the external
`lsst.ts.xml` / `lsst.ts.mtdomecom` interface that the design document
describes; they are not part of this repository's sources. -/

/-- Modelled from the spec: entry of a `messages` list of the
collaborator's status payload, a `{code, description}` dictionary. -/
structure FaultMessage where
  code : Int
  description : String
  deriving DecidableEq, Repr

/-- Modelled from the spec: `MTDome.EnabledState` of `lsst.ts.xml`.
The exact numeric values are not observable in the properties proved
here beyond being pairwise distinct and nonzero (the `Status` record
uses `0` as its construction default for the axis fields). -/
inductive EnabledState
  | DISABLED
  | ENABLED
  | FAULT
  deriving DecidableEq, Repr

/-- Integer value of an `EnabledState` member. -/
def EnabledState.value : EnabledState → Int
  | .DISABLED => 1
  | .ENABLED => 2
  | .FAULT => 3

/-- Modelled from the spec: `MTDome.PowerManagementMode` of
`lsst.ts.xml` (nonzero member values; `0` is the construction default
of `Status.state["powerMode"]`). -/
inductive PowerManagementMode
  | NO_POWER_MANAGEMENT
  | OPERATIONS
  | EMERGENCY
  | MAINTENANCE
  deriving DecidableEq, Repr

/-- Integer value of a `PowerManagementMode` member. -/
def PowerManagementMode.value : PowerManagementMode → Int
  | .NO_POWER_MANAGEMENT => 1
  | .OPERATIONS => 2
  | .EMERGENCY => 3
  | .MAINTENANCE => 4

/-- Modelled from the spec: the `ControlMode` enumeration of
`ts_mtdomecom` (to be moved to `ts_xml`, per the source comment). -/
inductive ControlMode
  | Local
  | Remote
  deriving DecidableEq, Repr

/-- Integer value of a `ControlMode` member. -/
def ControlMode.value : ControlMode → Int
  | .Local => 1
  | .Remote => 2

/-- Modelled from the spec: `MTDome.OperationalMode` of `lsst.ts.xml`. -/
inductive OperationalMode
  | NORMAL
  | DEGRADED
  deriving DecidableEq, Repr

/-- Integer value of an `OperationalMode` member. -/
def OperationalMode.value : OperationalMode → Int
  | .NORMAL => 1
  | .DEGRADED => 2

/-- Enum lookup `MTDome.OperationalMode[name]`. -/
def OperationalMode.fromName : String → Option OperationalMode
  | "NORMAL" => some .NORMAL
  | "DEGRADED" => some .DEGRADED
  | _ => none

/-- Modelled from the spec: `MTDome.SubSystemId` of `lsst.ts.xml`, in
enumeration order.  The order matches the `SUBSYSTEMS` list of this
repository's `constants.py` (azimuth, light/wind screen, aperture
shutter, louvers, thermal, monitoring, rear access door, calibration
screen, crane, capacitor banks). -/
inductive SubSystemId
  | AMCS
  | LWSCS
  | APSCS
  | LCS
  | THCS
  | MONCS
  | RAD
  | CSCS
  | OBC
  | CBCS
  deriving DecidableEq, Repr

/-- Members of `MTDome.SubSystemId` in enumeration order. -/
def subSystemIdMembers : List SubSystemId :=
  [.AMCS, .LWSCS, .APSCS, .LCS, .THCS, .MONCS, .RAD, .CSCS, .OBC, .CBCS]

/-- Modelled from the spec: `LlcName` of `ts_mtdomecom`, the lower
level component names. -/
inductive LlcName
  | AMCS
  | LWSCS
  | APSCS
  | LCS
  | THCS
  | MONCS
  | RAD
  | CSCS
  | OBC
  | CBCS
  deriving DecidableEq, Repr

/-- Name string of a lower level component (`llc_name.name`). -/
def LlcName.nameStr : LlcName → String
  | .AMCS => "AMCS"
  | .LWSCS => "LWSCS"
  | .APSCS => "APSCS"
  | .LCS => "LCS"
  | .THCS => "THCS"
  | .MONCS => "MONCS"
  | .RAD => "RAD"
  | .CSCS => "CSCS"
  | .OBC => "OBC"
  | .CBCS => "CBCS"

/-- Lower-case name of a lower level component (`llc_name.name.lower()`),
used as the telemetry signal field. -/
def LlcName.lowerName (llc : LlcName) : String :=
  llc.nameStr.toLower

/-- Modelled from the spec: `LlcNameDict` of `ts_mtdomecom`, the fixed
injective lookup table from public subsystem identifier to lower level
component name. -/
def LlcNameDict : List (SubSystemId × LlcName) :=
  [(.AMCS, .AMCS), (.LWSCS, .LWSCS), (.APSCS, .APSCS), (.LCS, .LCS),
   (.THCS, .THCS), (.MONCS, .MONCS), (.RAD, .RAD), (.CSCS, .CSCS),
   (.OBC, .OBC), (.CBCS, .CBCS)]

/-- Modelled from the spec: `MTDome.MotionState` of `lsst.ts.xml`, the
public motion-state enumeration.  The members named by the design
document and the classification allow-lists are all present; the
universal translation theorems are stated relative to `fromName` and so
do not depend on the exact member set. -/
inductive MotionState
  | CLOSED
  | CRAWLING
  | MOVING
  | OPEN
  | PARKED
  | PARKING
  | STOPPED
  | STOPPING
  | STOPPED_BRAKED
  deriving DecidableEq, Repr

/-- Enum lookup `MTDome.MotionState[label]` by member name. -/
def MotionState.fromName : String → Option MotionState
  | "CLOSED" => some .CLOSED
  | "CRAWLING" => some .CRAWLING
  | "MOVING" => some .MOVING
  | "OPEN" => some .OPEN
  | "PARKED" => some .PARKED
  | "PARKING" => some .PARKING
  | "STOPPED" => some .STOPPED
  | "STOPPING" => some .STOPPING
  | "STOPPED_BRAKED" => some .STOPPED_BRAKED
  | _ => none

/-- Modelled from the spec: `motion_state_translations` of
`ts_mtdomecom`, the static translation table for legacy motion-state
label spellings (`"STATIONARY"` maps to `STOPPED_BRAKED`). -/
def motion_state_translations : List (String × MotionState) :=
  [("STATIONARY", .STOPPED_BRAKED)]

/-- Modelled from the spec: `MON_NUM_SENSORS` of `ts_mtdomecom`, the
number of monitored interlock sensors (this repository's `constants.py`
documents `NUM_INTERLOCK = 16` for the same quantity). -/
def MON_NUM_SENSORS : Nat := 16

/-- Modelled from the spec: `CBCS_NUM_CAPACITOR_BANKS` of
`ts_mtdomecom`, the number of capacitor bank units. -/
def CBCS_NUM_CAPACITOR_BANKS : Nat := 2

/-- Modelled from the spec: `APSCS_NUM_SHUTTERS` of `ts_mtdomecom`. -/
def APSCS_NUM_SHUTTERS : Nat := 2

/-- Modelled from the spec: `LCS_NUM_LOUVERS` of `ts_mtdomecom`. -/
def LCS_NUM_LOUVERS : Nat := 34

/-- Modelled from the spec: `RAD_NUM_DOORS` of `ts_mtdomecom`. -/
def RAD_NUM_DOORS : Nat := 2

/-! ### Telemetry values and payloads -/

/-- Values carried by the collaborator's status dictionaries: numbers,
booleans, strings, and fixed-length arrays of those (per the external
schema registry), plus the `messages` fault list and the nested
float-valued configuration dictionary. -/
inductive PyVal
  | vBool (b : Bool)
  | vFloat (f : PyFloat)
  | vStr (s : String)
  | vBoolList (bs : List Bool)
  | vFloatList (fs : List PyFloat)
  | vStrList (ss : List String)
  | vMessages (ms : List FaultMessage)
  | vFloatDict (d : List (String × PyFloat))
  deriving DecidableEq, Repr

/-- Payload of one signal emission. -/
inductive Payload
  | pInt (i : Int)
  | pStr (s : String)
  | pBools (bs : List Bool)
  | pDict (d : List (String × PyVal))
  | pFloatDict (d : List (String × PyFloat))
  | pFloatPair (position velocity : PyFloat)
  | pMotion (m : MotionState) (inPosition : Bool)
  | pMotions (ms : List MotionState) (ips : List Bool)
  | pOpMode (subsystem : SubSystemId) (mode : OperationalMode)
  | pVal (v : PyVal)
  deriving DecidableEq, Repr

/-- One emission on a typed signal channel: the signal group name (the
key in `Reporter.signals`), the signal attribute within the group, and
the payload. -/
structure Event where
  signal : String
  field : String
  payload : Payload
  deriving DecidableEq, Repr

/-! ### Signal groups (`signals.py`) -/

/-- Keys of the `Reporter.signals` dictionary, from `Reporter.__init__`. -/
def signalNames : List String :=
  ["interlock", "state", "operational_mode", "telemetry", "target", "motion",
   "fault_code", "config"]

/-- Signal attributes declared by each signal group class in
`signals.py` (`SignalInterlock`, `SignalState`, `SignalOperationalMode`,
`SignalTelemetry`, `SignalTarget`, `SignalMotion`, `SignalFaultCode`,
`SignalConfig`). -/
def signalFields : String → List String
  | "interlock" => ["interlock", "locking_pins_engaged"]
  | "state" => ["brake_engaged", "azimuth_axis", "elevation_axis",
                "aperture_shutter", "power_mode"]
  | "operational_mode" => ["subsystem_mode"]
  | "telemetry" => ["amcs", "apscs", "cbcs", "cbcs_voltage", "cscs", "lcs",
                    "lwscs", "rad", "thcs"]
  | "target" => ["position_velocity_azimuth", "position_velocity_elevation"]
  | "motion" => ["azimuth_axis", "elevation_axis", "aperture_shutter"]
  | "fault_code" => ["azimuth_axis", "elevation_axis", "aperture_shutter"]
  | "config" => ["amcs", "lwscs"]
  | _ => []

/-- Emission `getattr(self.signals[signal_name], signal_field).emit(payload)`:
an unknown signal group raises `KeyError`, an undeclared attribute raises
`AttributeError`, otherwise the event is delivered. -/
def emit (signal_name signal_field : String) (payload : Payload) :
    Except PyErr Event :=
  if signalNames.contains signal_name then
    if (signalFields signal_name).contains signal_field then
      .ok ⟨signal_name, signal_field, payload⟩
    else
      .error (.attributeError signal_field)
  else
    .error (.keyError signal_name)

/-! ### The `Status` record (`status.py`) -/

/-- System status, from the `Status` dataclass. -/
structure Status where
  interlocks : List Bool
  state : List (String × Int)
  operational_modes : List Int
  capacitor_bank : List (String × PyVal)
  config_amcs : List (String × PyFloat)
  config_lwscs : List (String × PyFloat)
  deriving DecidableEq, Repr

/-- Default capacitor bank mapping of `Status`. -/
def capacitorBankDefault : List (String × PyVal) :=
  [("fuseIntervention", .vBoolList (List.replicate CBCS_NUM_CAPACITOR_BANKS false)),
   ("smokeDetected", .vBoolList (List.replicate CBCS_NUM_CAPACITOR_BANKS false)),
   ("highTemperature", .vBoolList (List.replicate CBCS_NUM_CAPACITOR_BANKS false)),
   ("lowResidualVoltage", .vBoolList (List.replicate CBCS_NUM_CAPACITOR_BANKS false)),
   ("doorOpen", .vBoolList (List.replicate CBCS_NUM_CAPACITOR_BANKS false))]

/-- Freshly constructed `Status`, with every field at its declared
default (`-1` sentinels for the locking pins and brake bitmasks). -/
def Status.default : Status where
  interlocks := List.replicate MON_NUM_SENSORS false
  state := [("lockingPinsEngaged", -1), ("brakeEngaged", -1), ("azimuthAxis", 0),
            ("elevationAxis", 0), ("apertureShutter", 0), ("powerMode", 0)]
  operational_modes := List.replicate subSystemIdMembers.length 0
  capacitor_bank := capacitorBankDefault
  config_amcs := [("jmax", .lit 0), ("amax", .lit 0), ("vmax", .lit 0)]
  config_lwscs := [("jmax", .lit 0), ("amax", .lit 0), ("vmax", .lit 0)]

/-! ### Reporter operations (`reporter.py`)

Each operation takes the current `Status` and returns the new `Status`
together with the list of events it emitted, or the Python exception it
raised.  (When an exception is raised the source object may already have
been partially mutated; none of the properties below observes the state
after an exception, so the error case carries no state.) -/

/-- Result of one Reporter operation that may mutate the status. -/
abbrev RunRes := Status × List Event

/-- The shared change-detection helper
`Reporter._check_system_state_and_report`: read
`status.state[state_field]` (a missing key raises `KeyError`), and when
the value differs, write the field and emit it on
`signals[signal_name].<signal_field>`. -/
def check_system_state_and_report (st : Status) (state_field signal_name
    signal_field : String) (value : Int) : Except PyErr RunRes :=
  match dictGet st.state state_field with
  | none => .error (.keyError state_field)
  | some cur =>
    if cur != value then
      let st2 := { st with state := setKey st.state state_field value }
      match emit signal_name signal_field (.pInt value) with
      | .error e => .error e
      | .ok ev => .ok (st2, [ev])
    else
      .ok (st, [])

/-- `Reporter.report_interlocks`. -/
def report_interlocks (st : Status) (interlocks : List Bool) :
    Except PyErr RunRes :=
  if st.interlocks != interlocks then
    let st2 := { st with interlocks := interlocks }
    match emit "interlock" "interlock" (.pBools interlocks) with
    | .error e => .error e
    | .ok ev => .ok (st2, [ev])
  else
    .ok (st, [])

/-- `Reporter.report_state_locking_pins_engaged`. -/
def report_state_locking_pins_engaged (st : Status) (engaged_pins : Int) :
    Except PyErr RunRes :=
  check_system_state_and_report st "lockingPinsEngaged" "interlock"
    "locking_pins_engaged" engaged_pins

/-- `Reporter.report_state_brake_engaged`. -/
def report_state_brake_engaged (st : Status) (brakes : Int) :
    Except PyErr RunRes :=
  check_system_state_and_report st "brakeEngaged" "state" "brake_engaged" brakes

/-- `Reporter.report_state_azimuth_axis`. -/
def report_state_azimuth_axis (st : Status) (state : EnabledState) :
    Except PyErr RunRes :=
  check_system_state_and_report st "azimuthAxis" "state" "azimuth_axis"
    state.value

/-- `Reporter.report_state_elevation_axis`. -/
def report_state_elevation_axis (st : Status) (state : EnabledState) :
    Except PyErr RunRes :=
  check_system_state_and_report st "elevationAxis" "state" "elevation_axis"
    state.value

/-- `Reporter.report_state_aperture_shutter`. -/
def report_state_aperture_shutter (st : Status) (state : EnabledState) :
    Except PyErr RunRes :=
  check_system_state_and_report st "apertureShutter" "state" "aperture_shutter"
    state.value

/-- `Reporter.report_state_louvers`. -/
def report_state_louvers (st : Status) (state : EnabledState) :
    Except PyErr RunRes :=
  check_system_state_and_report st "louvers" "state" "louvers" state.value

/-- `Reporter.report_state_rear_access_door`. -/
def report_state_rear_access_door (st : Status) (state : EnabledState) :
    Except PyErr RunRes :=
  check_system_state_and_report st "rearAccessDoor" "state" "rear_access_door"
    state.value

/-- `Reporter.report_state_calibration_screen`. -/
def report_state_calibration_screen (st : Status) (state : EnabledState) :
    Except PyErr RunRes :=
  check_system_state_and_report st "calibrationScreen" "state"
    "calibration_screen" state.value

/-- `Reporter.report_state_power_mode`. -/
def report_state_power_mode (st : Status) (mode : PowerManagementMode) :
    Except PyErr RunRes :=
  check_system_state_and_report st "powerMode" "state" "power_mode" mode.value

/-- `Reporter.report_state_control_mode`. -/
def report_state_control_mode (st : Status) (mode : ControlMode) :
    Except PyErr RunRes :=
  check_system_state_and_report st "controlMode" "state" "control_mode"
    mode.value

/-- Index of a subsystem in the `MTDome.SubSystemId` enumeration order,
as computed by the `for idx, specific_subsystem in enumerate(...)` loop
of `report_operational_mode` (every subsystem occurs in the list, so
the loop always breaks at its position). -/
def subSystemIndex (subsystem : SubSystemId) : Nat :=
  subSystemIdMembers.findIdx (fun s => s == subsystem)

/-- `Reporter.report_operational_mode`: change detection against the
`operational_modes` slot of the subsystem. -/
def report_operational_mode (st : Status) (subsystem : SubSystemId)
    (mode : OperationalMode) : Except PyErr RunRes :=
  let idx := subSystemIndex subsystem
  match st.operational_modes.get? idx with
  | none => .error .indexError
  | some cur =>
    if cur != mode.value then
      let st2 := { st with operational_modes := st.operational_modes.set idx mode.value }
      match emit "operational_mode" "subsystem_mode" (.pOpMode subsystem mode) with
      | .error e => .error e
      | .ok ev => .ok (st2, [ev])
    else
      .ok (st, [])

/-- `Reporter.report_capacitor_bank`: emit the DC bus voltage (a missing
`"dcBusVoltage"` key raises `KeyError` before anything is emitted), pop
that key from the caller's mapping, then publish the `cbcs` event only
when the remaining mapping differs from the stored one.  The third
component of the result is the caller's mapping after the in-place
`pop`. -/
def report_capacitor_bank (st : Status) (capacitor_bank : List (String × PyVal)) :
    Except PyErr (Status × List Event × List (String × PyVal)) :=
  match dictGet capacitor_bank "dcBusVoltage" with
  | none => .error (.keyError "dcBusVoltage")
  | some voltage =>
    match emit "telemetry" "cbcs_voltage" (.pVal voltage) with
    | .error e => .error e
    | .ok ev1 =>
      let popped := eraseKey capacitor_bank "dcBusVoltage"
      if !(pyDictEq st.capacitor_bank popped) then
        let st2 := { st with capacitor_bank := popped }
        match emit "telemetry" "cbcs" (.pDict popped) with
        | .error e => .error e
        | .ok ev2 => .ok (st2, [ev1, ev2], popped)
      else
        .ok (st, [ev1], popped)

/-- `Reporter.report_config_azimuth`. -/
def report_config_azimuth (st : Status) (config : List (String × PyFloat)) :
    Except PyErr RunRes :=
  if !(pyDictEq st.config_amcs config) then
    let st2 := { st with config_amcs := config }
    match emit "config" "amcs" (.pFloatDict config) with
    | .error e => .error e
    | .ok ev => .ok (st2, [ev])
  else
    .ok (st, [])

/-- `Reporter.report_config_elevation`. -/
def report_config_elevation (st : Status) (config : List (String × PyFloat)) :
    Except PyErr RunRes :=
  if !(pyDictEq st.config_lwscs config) then
    let st2 := { st with config_lwscs := config }
    match emit "config" "lwscs" (.pFloatDict config) with
    | .error e => .error e
    | .ok ev => .ok (st2, [ev])
  else
    .ok (st, [])

/-- `Reporter.report_telemetry`: unconditional emission on the telemetry
group attribute named by `field`. -/
def report_telemetry (field : String) (telemetry : List (String × PyVal)) :
    Except PyErr (List Event) :=
  match emit "telemetry" field (.pDict telemetry) with
  | .error e => .error e
  | .ok ev => .ok [ev]

/-- `Reporter.report_target_azimuth`. -/
def report_target_azimuth (position velocity : PyFloat) :
    Except PyErr (List Event) :=
  match emit "target" "position_velocity_azimuth" (.pFloatPair position velocity) with
  | .error e => .error e
  | .ok ev => .ok [ev]

/-- `Reporter.report_target_elevation`. -/
def report_target_elevation (position velocity : PyFloat) :
    Except PyErr (List Event) :=
  match emit "target" "position_velocity_elevation" (.pFloatPair position velocity) with
  | .error e => .error e
  | .ok ev => .ok [ev]

/-- `Reporter.report_motion_azimuth_axis`. -/
def report_motion_azimuth_axis (motion_state : MotionState) (in_position : Bool) :
    Except PyErr (List Event) :=
  match emit "motion" "azimuth_axis" (.pMotion motion_state in_position) with
  | .error e => .error e
  | .ok ev => .ok [ev]

/-- `Reporter.report_motion_elevation_axis`. -/
def report_motion_elevation_axis (motion_state : MotionState) (in_position : Bool) :
    Except PyErr (List Event) :=
  match emit "motion" "elevation_axis" (.pMotion motion_state in_position) with
  | .error e => .error e
  | .ok ev => .ok [ev]

/-- `Reporter.report_motion_aperture_shutter`. -/
def report_motion_aperture_shutter (motion_states : List MotionState)
    (in_positions : List Bool) : Except PyErr (List Event) :=
  match emit "motion" "aperture_shutter" (.pMotions motion_states in_positions) with
  | .error e => .error e
  | .ok ev => .ok [ev]

/-- `Reporter.report_motion_louvers` (the `louvers` attribute is not
declared by `SignalMotion` in `signals.py`). -/
def report_motion_louvers (motion_states : List MotionState)
    (in_positions : List Bool) : Except PyErr (List Event) :=
  match emit "motion" "louvers" (.pMotions motion_states in_positions) with
  | .error e => .error e
  | .ok ev => .ok [ev]

/-- `Reporter.report_motion_rear_access_door` (the `rear_access_door`
attribute is not declared by `SignalMotion` in `signals.py`). -/
def report_motion_rear_access_door (motion_states : List MotionState)
    (in_positions : List Bool) : Except PyErr (List Event) :=
  match emit "motion" "rear_access_door" (.pMotions motion_states in_positions) with
  | .error e => .error e
  | .ok ev => .ok [ev]

/-- `Reporter.report_motion_calibration_screen` (the
`calibration_screen` attribute is not declared by `SignalMotion`). -/
def report_motion_calibration_screen (motion_state : MotionState)
    (in_position : Bool) : Except PyErr (List Event) :=
  match emit "motion" "calibration_screen" (.pMotion motion_state in_position) with
  | .error e => .error e
  | .ok ev => .ok [ev]

/-- `Reporter.report_fault_code_azimuth_axis`. -/
def report_fault_code_azimuth_axis (fault_code : String) :
    Except PyErr (List Event) :=
  match emit "fault_code" "azimuth_axis" (.pStr fault_code) with
  | .error e => .error e
  | .ok ev => .ok [ev]

/-- `Reporter.report_fault_code_elevation_axis`. -/
def report_fault_code_elevation_axis (fault_code : String) :
    Except PyErr (List Event) :=
  match emit "fault_code" "elevation_axis" (.pStr fault_code) with
  | .error e => .error e
  | .ok ev => .ok [ev]

/-- `Reporter.report_fault_code_aperture_shutter`. -/
def report_fault_code_aperture_shutter (fault_code : String) :
    Except PyErr (List Event) :=
  match emit "fault_code" "aperture_shutter" (.pStr fault_code) with
  | .error e => .error e
  | .ok ev => .ok [ev]

/-- `Reporter.report_fault_code_louvers` (attribute not declared by
`SignalFaultCode`). -/
def report_fault_code_louvers (fault_code : String) :
    Except PyErr (List Event) :=
  match emit "fault_code" "louvers" (.pStr fault_code) with
  | .error e => .error e
  | .ok ev => .ok [ev]

/-- `Reporter.report_fault_code_rear_access_door` (attribute not
declared by `SignalFaultCode`). -/
def report_fault_code_rear_access_door (fault_code : String) :
    Except PyErr (List Event) :=
  match emit "fault_code" "rear_access_door" (.pStr fault_code) with
  | .error e => .error e
  | .ok ev => .ok [ev]

/-- `Reporter.report_fault_code_calibration_screen` (attribute not
declared by `SignalFaultCode`). -/
def report_fault_code_calibration_screen (fault_code : String) :
    Except PyErr (List Event) :=
  match emit "fault_code" "calibration_screen" (.pStr fault_code) with
  | .error e => .error e
  | .ok ev => .ok [ev]

/-- Modelled from the spec: `generate_dict_from_registry` of `utils.py`
builds a zero-valued telemetry dictionary shaped by the external schema
registry of `ts_mtdomecom`.  The registry data is not part of this
repository, so the shape is abstracted to an empty property set here;
no property proved below depends on it (`report_default` raises before
reaching its first use). -/
def generate_dict_from_registry (_component : String) : List (String × PyVal) :=
  []

/-- Components whose default telemetry `report_default` publishes. -/
def defaultTelemetryComponents : List String :=
  ["AMCS", "LWSCS", "ApSCS", "LCS", "ThCS", "RAD", "CSCS"]

/-- `Reporter.report_default`: publish the fixed baseline on every
channel, in source order. -/
def report_default (st : Status) : Except PyErr RunRes := do
  let ev0 ← emit "interlock" "interlock" (.pBools st.interlocks)
  let (st, evs1) ← report_state_locking_pins_engaged st 0
  let (st, evs2) ← report_state_brake_engaged st 0
  let (st, evs3) ← report_state_azimuth_axis st .DISABLED
  let (st, evs4) ← report_state_elevation_axis st .DISABLED
  let (st, evs5) ← report_state_aperture_shutter st .DISABLED
  let (st, evs6) ← report_state_louvers st .DISABLED
  let (st, evs7) ← report_state_rear_access_door st .DISABLED
  let (st, evs8) ← report_state_calibration_screen st .DISABLED
  let (st, evs9) ← report_state_power_mode st .NO_POWER_MANAGEMENT
  let (st, evs10) ← report_state_control_mode st .Remote
  let (st, evsModes) ← subSystemIdMembers.foldlM
    (fun (acc : RunRes) subsystem => do
      let (st2, evs) ← report_operational_mode acc.1 subsystem .NORMAL
      pure (st2, acc.2 ++ evs))
    (st, [])
  let evsCbcs ← report_telemetry "cbcs" st.capacitor_bank
  let evVolt ← emit "telemetry" "cbcs_voltage" (.pVal (.vFloat (.lit 0)))
  let evsTel ← defaultTelemetryComponents.foldlM
    (fun (acc : List Event) component => do
      let evs ← report_telemetry component.toLower
        (generate_dict_from_registry component)
      pure (acc ++ evs))
    []
  let evsT1 ← report_target_azimuth (.lit 0) (.lit 0)
  let evsT2 ← report_target_elevation (.lit 0) (.lit 0)
  let evsM1 ← report_motion_azimuth_axis .STOPPED false
  let evsM2 ← report_motion_elevation_axis .STOPPED false
  let evsM3 ← report_motion_aperture_shutter
    (List.replicate APSCS_NUM_SHUTTERS .STOPPED)
    (List.replicate APSCS_NUM_SHUTTERS false)
  let evsM4 ← report_motion_louvers
    (List.replicate LCS_NUM_LOUVERS .STOPPED)
    (List.replicate LCS_NUM_LOUVERS false)
  let evsM5 ← report_motion_rear_access_door
    (List.replicate RAD_NUM_DOORS .STOPPED)
    (List.replicate RAD_NUM_DOORS false)
  let evsM6 ← report_motion_calibration_screen .STOPPED false
  .ok (st, ev0 :: (evs1 ++ evs2 ++ evs3 ++ evs4 ++ evs5 ++ evs6 ++ evs7 ++
    evs8 ++ evs9 ++ evs10 ++ evsModes ++ evsCbcs ++ [evVolt] ++ evsTel ++
    evsT1 ++ evsT2 ++ evsM1 ++ evsM2 ++ evsM3 ++ evsM4 ++ evsM5 ++ evsM6))

/-! ### Model classification logic (`model.py`) -/

/-- One logger call made by the embedded Model code. -/
inductive LogEntry
  | logError (msg : String)
  | logException (msg : String)
  deriving DecidableEq, Repr

/-- `Model._get_fault_code`: the `codes` list is built first, then
`has_error` is `(len(messages) != 1) or (codes[0] != 0)` with Python's
short-circuit `or`, so `codes[0]` is read only when the length is
exactly 1; the indexing is kept explicit (`List.get?`) and an
out-of-bounds read would surface as `IndexError`.  The fault-code string
joins `"{code}={description}"` over all messages, comma-separated, and
is empty when there is no error. -/
def get_fault_code (messages : List FaultMessage) :
    Except PyErr (Bool × String) :=
  let codes := messages.map (fun message => message.code)
  let has_error : Except PyErr Bool :=
    if messages.length != 1 then
      .ok true
    else
      match codes.get? 0 with
      | none => .error .indexError
      | some c0 => .ok (c0 != 0)
  match has_error with
  | .error e => .error e
  | .ok has_error =>
    let fault_code :=
      if has_error then
        strJoin ", " (messages.map
          (fun message => toString message.code ++ "=" ++ message.description))
      else ""
    .ok (has_error, fault_code)

/-- `Model._translate_motion_state_if_necessary`: direct enum lookup
first, then the static legacy translation table, else one logged error
and no state.  The log message mirrors
`f"Unknown motion state: {state!r}"` (the `repr` quoting of the label is
not reproduced). -/
def translate_motion_state_if_necessary (state : String) :
    Option MotionState × List LogEntry :=
  match MotionState.fromName state with
  | some m => (some m, [])
  | none =>
    match motion_state_translations.lookup state with
    | some m => (some m, [])
    | none => (none, [.logError ("Unknown motion state: " ++ state)])

/-- Allow-list of settled motion states for the azimuth axis, from
`Model._check_errors_and_report_azimuth`. -/
def azimuthInPositionStates : List MotionState :=
  [.STOPPED, .STOPPED_BRAKED, .CRAWLING, .PARKED]

/-- Allow-list of settled motion states for the elevation axis, from
`Model._check_errors_and_report_elevation`. -/
def elevationInPositionStates : List MotionState :=
  [.STOPPED, .STOPPED_BRAKED, .CRAWLING]

/-- Allow-list of settled motion states for the aperture shutter, from
`Model._check_errors_and_report_aperture_shutter`. -/
def shutterInPositionStates : List MotionState :=
  [.STOPPED, .STOPPED_BRAKED]

/-- Value found under the `"status"` key of a subsystem state block:
a single motion-state label for the axes, a list of labels for the
aperture shutter. -/
inductive LabelVal
  | single (s : String)
  | multiple (ss : List String)
  deriving DecidableEq, Repr

/-- The nested dictionary under the top-level `"status"` key of a raw
subsystem status payload, with the three keys the Model reads:
`operationalMode` (optional), `messages`, and `status` (the motion
label or labels). -/
structure StateBlock where
  operationalMode : Option String
  messages : List FaultMessage
  label : LabelVal
  deriving DecidableEq, Repr

/-- Reading the block's motion label where the source expects a single
string (a list here would make the enum lookup fail with `TypeError`). -/
def LabelVal.asSingle : LabelVal → Except PyErr String
  | .single s => .ok s
  | .multiple _ => .error .typeError

/-- Reading the block's motion label where the source iterates over a
list of labels. -/
def LabelVal.asMultiple : LabelVal → Except PyErr (List String)
  | .multiple ss => .ok ss
  | .single _ => .error .typeError

/-- Result of one classification step: new status, emitted events, and
logger calls. -/
abbrev ClassifyRes := Status × List Event × List LogEntry

/-- `Model._check_errors_and_report_azimuth`: fault classification, the
ENABLED/FAULT state report, the fault-code report, and — only without
error and with a recognized label — the motion report with the azimuth
in-position allow-list. -/
def check_errors_and_report_azimuth (st : Status) (block : StateBlock) :
    Except PyErr ClassifyRes :=
  match get_fault_code block.messages with
  | .error e => .error e
  | .ok (has_error, fault_code) =>
    let state := if has_error then EnabledState.FAULT else EnabledState.ENABLED
    match report_state_azimuth_axis st state with
    | .error e => .error e
    | .ok (st, evs1) =>
      match report_fault_code_azimuth_axis fault_code with
      | .error e => .error e
      | .ok evs2 =>
        if !has_error then
          match block.label.asSingle with
          | .error e => .error e
          | .ok label =>
            match translate_motion_state_if_necessary label with
            | (some motion_state, logs) =>
              let in_position := azimuthInPositionStates.contains motion_state
              match report_motion_azimuth_axis motion_state in_position with
              | .error e => .error e
              | .ok evs3 => .ok (st, evs1 ++ evs2 ++ evs3, logs)
            | (none, logs) => .ok (st, evs1 ++ evs2, logs)
        else
          .ok (st, evs1 ++ evs2, [])

/-- `Model._check_errors_and_report_elevation`: same shape as the
azimuth classification with the elevation allow-list (no PARKED). -/
def check_errors_and_report_elevation (st : Status) (block : StateBlock) :
    Except PyErr ClassifyRes :=
  match get_fault_code block.messages with
  | .error e => .error e
  | .ok (has_error, fault_code) =>
    let state := if has_error then EnabledState.FAULT else EnabledState.ENABLED
    match report_state_elevation_axis st state with
    | .error e => .error e
    | .ok (st, evs1) =>
      match report_fault_code_elevation_axis fault_code with
      | .error e => .error e
      | .ok evs2 =>
        if !has_error then
          match block.label.asSingle with
          | .error e => .error e
          | .ok label =>
            match translate_motion_state_if_necessary label with
            | (some motion_state, logs) =>
              let in_position := elevationInPositionStates.contains motion_state
              match report_motion_elevation_axis motion_state in_position with
              | .error e => .error e
              | .ok evs3 => .ok (st, evs1 ++ evs2 ++ evs3, logs)
            | (none, logs) => .ok (st, evs1 ++ evs2, logs)
        else
          .ok (st, evs1 ++ evs2, [])

/-- The per-shutter loop of
`Model._check_errors_and_report_aperture_shutter`: translate each label
in order; the first unrecognized label aborts the whole method (`return`)
with its single logged error and no motion report. -/
def translate_shutter_labels :
    List String → Option (List MotionState × List Bool) × List LogEntry
  | [] => (some ([], []), [])
  | l :: rest =>
    match translate_motion_state_if_necessary l with
    | (none, logs) => (none, logs)
    | (some m, logs0) =>
      match translate_shutter_labels rest with
      | (none, logs) => (none, logs0 ++ logs)
      | (some (ms, ips), logs) =>
        (some (m :: ms, shutterInPositionStates.contains m :: ips),
         logs0 ++ logs)

/-- `Model._check_errors_and_report_aperture_shutter`. -/
def check_errors_and_report_aperture_shutter (st : Status)
    (block : StateBlock) : Except PyErr ClassifyRes :=
  match get_fault_code block.messages with
  | .error e => .error e
  | .ok (has_error, fault_code) =>
    let state := if has_error then EnabledState.FAULT else EnabledState.ENABLED
    match report_state_aperture_shutter st state with
    | .error e => .error e
    | .ok (st, evs1) =>
      match report_fault_code_aperture_shutter fault_code with
      | .error e => .error e
      | .ok evs2 =>
        if !has_error then
          match block.label.asMultiple with
          | .error e => .error e
          | .ok labels =>
            match translate_shutter_labels labels with
            | (some (motion_states, in_positions), logs) =>
              match report_motion_aperture_shutter motion_states in_positions with
              | .error e => .error e
              | .ok evs3 => .ok (st, evs1 ++ evs2 ++ evs3, logs)
            | (none, logs) => .ok (st, evs1 ++ evs2, logs)
        else
          .ok (st, evs1 ++ evs2, [])

/-- `Model._check_errors_and_report`: only the azimuth, elevation and
aperture-shutter subsystems are classified; all others pass through. -/
def check_errors_and_report (st : Status) (llc : LlcName)
    (block : StateBlock) : Except PyErr ClassifyRes :=
  match llc with
  | .AMCS => check_errors_and_report_azimuth st block
  | .LWSCS => check_errors_and_report_elevation st block
  | .APSCS => check_errors_and_report_aperture_shutter st block
  | _ => .ok (st, [], [])

/-- `Model._get_subsystem_id`: first key of `LlcNameDict` whose value is
the given LLC name (`IndexError` when the comprehension is empty). -/
def get_subsystem_id (llc : LlcName) : Except PyErr SubSystemId :=
  match (LlcNameDict.filter (fun p => p.2 == llc)).head? with
  | some p => .ok p.1
  | none => .error .indexError

/-- `Model._report_operational_mode`: when the block carries an
`operationalMode` entry, report it tagged with the subsystem identifier
(`MTDome.OperationalMode[name]` raises `KeyError` on an unknown name). -/
def model_report_operational_mode (st : Status) (llc : LlcName)
    (block : StateBlock) : Except PyErr RunRes :=
  match block.operationalMode with
  | none => .ok (st, [])
  | some modeName =>
    match get_subsystem_id llc with
    | .error e => .error e
    | .ok sid =>
      match OperationalMode.fromName modeName with
      | none => .error (.keyError modeName)
      | some mode => report_operational_mode st sid mode

/-- Keys stripped from the telemetry payload, `_KEYS_TO_REMOVE`. -/
def KEYS_TO_REMOVE : List String :=
  ["status", "timestamp", "operationalMode", "appliedConfiguration"]

/-- `Model._remove_keys_from_dict`. -/
def remove_keys_from_dict (d : List (String × α)) : List (String × α) :=
  d.filter (fun kv => !(KEYS_TO_REMOVE.contains kv.1))

/-- Top-level raw status payload of one subsystem poll, as returned by
the collaborator: the nested state block under `"status"`, the optional
`appliedConfiguration` dictionary, the `timestamp`, and the remaining
(telemetry) properties. -/
structure RawLlcStatus where
  stateBlock : StateBlock
  appliedConfiguration : Option (List (String × PyFloat))
  timestamp : PyFloat
  telemetry : List (String × PyVal)
  deriving DecidableEq, Repr

/-- `Model._report_configuration`: convert the jerk, acceleration and
velocity entries from radians to degrees in place (a missing entry
raises `KeyError`), then report as azimuth or elevation configuration
depending on the subsystem. -/
def model_report_configuration (st : Status) (llc : LlcName)
    (raw : RawLlcStatus) : Except PyErr RunRes :=
  match raw.appliedConfiguration with
  | none => .ok (st, [])
  | some configuration =>
    match ["jmax", "amax", "vmax"].foldlM
        (fun (acc : List (String × PyFloat)) name =>
          (match dictGet acc name with
           | none => .error (.keyError name)
           | some v => .ok (setKey acc name (PyFloat.degreesOf v)) :
           Except PyErr (List (String × PyFloat))))
        configuration with
    | .error e => (.error e : Except PyErr RunRes)
    | .ok configuration =>
      if llc = .AMCS then
        report_config_azimuth st configuration
      else if llc = .LWSCS then
        report_config_elevation st configuration
      else
        .ok (st, [])

/-- Truthiness coercion `bool(value)` over the elements of a sequence
value, used for the monitoring interlock array. -/
def pyvalSeqToBools : PyVal → Except PyErr (List Bool)
  | .vBoolList bs => .ok bs
  | .vFloatList fs => .ok (fs.map PyFloat.truthy)
  | _ => .error .typeError

/-- The CBCS float-to-boolean workaround of
`request_llc_status_and_report`: when `fuseIntervention[0]` is not a
boolean, every element of that entry is coerced with `bool(...)`
(reading the entry raises `KeyError` when absent and indexing an empty
array raises `IndexError`). -/
def coerce_fuse_intervention (telemetry : List (String × PyVal)) :
    Except PyErr (List (String × PyVal)) :=
  match dictGet telemetry "fuseIntervention" with
  | none => .error (.keyError "fuseIntervention")
  | some v =>
    match v with
    | .vBoolList [] => .error .indexError
    | .vBoolList _ => .ok telemetry
    | .vFloatList [] => .error .indexError
    | .vFloatList fs =>
      .ok (setKey telemetry "fuseIntervention" (.vBoolList (fs.map PyFloat.truthy)))
    | _ => .error .typeError

/-- Outcome of one collaborator status request: a payload, the
`ValueError` that `request_llc_status` raises on failure (modelled from
the spec: the collaborator's status-fetch failure mode), or any other
exception. -/
inductive FetchResult
  | fetched (raw : RawLlcStatus)
  | valueError
  | otherExc (e : PyErr)
  deriving DecidableEq, Repr

/-- The logged message of a failed status fetch, mirroring
`f"Failed to retrieve the status of {llc_name!r}."` (without the `repr`
decoration of the enum member). -/
def fetchFailureLog (llc : LlcName) : LogEntry :=
  .logError ("Failed to retrieve the status of " ++ llc.nameStr ++ ".")

/-- `Model.request_llc_status_and_report`: the status request is wrapped
in `try/except ValueError`; on that failure the error is logged and the
method returns with nothing reported.  On success the payload is routed
through operational-mode extraction, configuration conversion, fault and
motion classification, and the per-subsystem telemetry dispatch
(monitoring becomes an interlock report, OBC is skipped, the capacitor
bank gets the coercion workaround, everything else is forwarded as
telemetry).  Any exception other than the caught `ValueError`
propagates. -/
def request_llc_status_and_report (st : Status) (llc : LlcName)
    (fetch : FetchResult) : Except PyErr ClassifyRes :=
  match fetch with
  | .valueError => .ok (st, [], [fetchFailureLog llc])
  | .otherExc e => .error e
  | .fetched raw =>
    match model_report_operational_mode st llc raw.stateBlock with
    | .error e => .error e
    | .ok (st, evs1) =>
      match model_report_configuration st llc raw with
      | .error e => .error e
      | .ok (st, evs2) =>
        match check_errors_and_report st llc raw.stateBlock with
        | .error e => .error e
        | .ok (st, evs3, logs3) =>
          let processed_telemetry := remove_keys_from_dict raw.telemetry
          match llc with
          | .MONCS =>
            match dictGet processed_telemetry "data" with
            | none => .error (.keyError "data")
            | some v =>
              match pyvalSeqToBools v with
              | .error e => .error e
              | .ok data =>
                match report_interlocks st data with
                | .error e => .error e
                | .ok (st, evs4) =>
                  .ok (st, evs1 ++ evs2 ++ evs3 ++ evs4, logs3)
          | .OBC => .ok (st, evs1 ++ evs2 ++ evs3, logs3)
          | .CBCS =>
            match coerce_fuse_intervention processed_telemetry with
            | .error e => .error e
            | .ok processed =>
              match report_capacitor_bank st processed with
              | .error e => .error e
              | .ok (st, evs4, _mutated) =>
                .ok (st, evs1 ++ evs2 ++ evs3 ++ evs4, logs3)
          | _ =>
            match report_telemetry llc.lowerName processed_telemetry with
            | .error e => .error e
            | .ok evs4 => .ok (st, evs1 ++ evs2 ++ evs3 ++ evs4, logs3)

/-- `Model.one_periodic_task` specialised to a status-poll method: run
the poll for each scheduled cycle in turn (the sleep between cycles and
the cooperative cancellation at the end of the schedule are not
modelled).  A cycle that raises a non-`CancelledError` exception is
logged (`log.exception`) and terminates the task, dropping the
remaining cycles; a cycle whose fetch failure was already caught inside
`request_llc_status_and_report` does not. -/
def one_periodic_task_run (st : Status) (llc : LlcName) :
    List FetchResult → Status × List Event × List LogEntry
  | [] => (st, [], [])
  | fetch :: rest =>
    match request_llc_status_and_report st llc fetch with
    | .error _ =>
      (st, [], [.logException "one_periodic_task has stopped."])
    | .ok (st2, evs, logs) =>
      let (st3, evs2, logs2) := one_periodic_task_run st2 llc rest
      (st3, evs ++ evs2, logs ++ logs2)

/-- One row per discrete-state report operation of the Reporter: the
`Status.state` field it reads, and the signal group and attribute it
publishes on.  Each wrapper `report_state_*` above is definitionally
`check_system_state_and_report` applied to its row. -/
structure StateReportOp where
  state_field : String
  signal_name : String
  signal_field : String
  deriving DecidableEq, Repr

/-- The discrete-state report operations of `reporter.py`, in source
order: locking pins, brake, azimuth axis, elevation axis, aperture
shutter, louvers, rear access door, calibration screen, power mode,
control mode. -/
def state_report_ops : List StateReportOp :=
  [⟨"lockingPinsEngaged", "interlock", "locking_pins_engaged"⟩,
   ⟨"brakeEngaged", "state", "brake_engaged"⟩,
   ⟨"azimuthAxis", "state", "azimuth_axis"⟩,
   ⟨"elevationAxis", "state", "elevation_axis"⟩,
   ⟨"apertureShutter", "state", "aperture_shutter"⟩,
   ⟨"louvers", "state", "louvers"⟩,
   ⟨"rearAccessDoor", "state", "rear_access_door"⟩,
   ⟨"calibrationScreen", "state", "calibration_screen"⟩,
   ⟨"powerMode", "state", "power_mode"⟩,
   ⟨"controlMode", "state", "control_mode"⟩]

/-! ### Dictionary lemmas -/

/-- A successful lookup means the key is among the dictionary keys. -/
theorem mem_dictKeys_of_dictGet_some {α : Type} {d : List (String × α)}
    {k : String} {v : α} (h : dictGet d k = some v) : k ∈ dictKeys d := by
  induction d with
  | nil => simp [dictGet] at h
  | cons kv rest ih =>
    obtain ⟨k2, v2⟩ := kv
    by_cases hk : k = k2
    · subst hk
      simp [dictKeys]
    · have hb : (k == k2) = false := beq_eq_false_iff_ne.mpr hk
      have h2 : dictGet rest k = some v := by
        simpa [dictGet, List.lookup, hb] using h
      simp [dictKeys]
      exact Or.inr (by simpa [dictKeys] using ih h2)

/-- Updating a present key makes the lookup return the new value. -/
theorem dictGet_setKey_of_isSome {α : Type} {d : List (String × α)}
    {k : String} (v : α) (h : (dictGet d k).isSome) :
    dictGet (setKey d k v) k = some v := by
  induction d with
  | nil => simp [dictGet] at h
  | cons kv rest ih =>
    obtain ⟨k2, v2⟩ := kv
    by_cases hk : k2 = k
    · subst hk
      simp [setKey, dictGet, List.lookup]
    · have hb : (k == k2) = false := beq_eq_false_iff_ne.mpr (Ne.symm hk)
      have h2 : (dictGet rest k).isSome := by
        simpa [dictGet, List.lookup, hb] using h
      simpa [setKey, hk, dictGet, List.lookup, hb] using ih h2

/-- Updating one key leaves the key list unchanged. -/
theorem dictKeys_setKey {α : Type} (d : List (String × α)) (k : String)
    (v : α) : dictKeys (setKey d k v) = dictKeys d := by
  induction d with
  | nil => rfl
  | cons kv rest ih =>
    obtain ⟨k2, v2⟩ := kv
    by_cases hk : k2 = k
    · simp [setKey, hk, dictKeys]
    · simp [setKey, hk, dictKeys]
      simpa [dictKeys] using ih

/-- A popped key is no longer found. -/
theorem dictGet_eraseKey_self {α : Type} (d : List (String × α))
    (k : String) : dictGet (eraseKey d k) k = none := by
  induction d with
  | nil => rfl
  | cons kv rest ih =>
    obtain ⟨k2, v2⟩ := kv
    by_cases hk : k2 = k
    · simpa [eraseKey, hk] using ih
    · have hb : (k2 != k) = true := by
        simpa [bne] using beq_eq_false_iff_ne.mpr hk
      have hb2 : (k == k2) = false := beq_eq_false_iff_ne.mpr (Ne.symm hk)
      simpa [eraseKey, hb, dictGet, List.lookup, hb2] using ih

/-! ### Claim theorems -/

/-- Claim C9: `Model._get_fault_code` is total over every list of
`{code, description}` messages — the single-code check `codes[0] != 0`
is reached only when the list length is exactly 1, so the explicit
indexing never reads out of bounds; for the empty list it returns
`has_error = True` together with the empty fault-code string. -/
theorem c9_get_fault_code_total :
    (∀ messages : List FaultMessage, ∃ r, get_fault_code messages = .ok r) ∧
    get_fault_code [] = .ok (true, "") := by
  constructor
  · intro messages
    match messages with
    | [] => exact ⟨(true, ""), rfl⟩
    | [m] => exact ⟨_, rfl⟩
    | a :: b :: rest => exact ⟨_, rfl⟩
  · rfl

/-- Claim C3: the fault classification returns `has_error = True`
exactly when the `messages` list does not have length 1 or its single
entry's code is nonzero; `[{code: 0, description: "No Errors"}]` yields
`(False, "")`, the empty list yields an error with empty fault code,
and a two-entry list yields the joined string `"c1=d1, c2=d2"` in input
order. -/
theorem c3_fault_classification_boundary :
    (∀ (messages : List FaultMessage) (r : Bool × String),
        get_fault_code messages = .ok r →
        (r.1 = true ↔ messages.length ≠ 1 ∨
          ∃ m, messages = [m] ∧ m.code ≠ 0)) ∧
    get_fault_code [{ code := 0, description := "No Errors" }] =
      .ok (false, "") ∧
    get_fault_code [] = .ok (true, "") ∧
    (∀ (c1 : Int) (d1 : String) (c2 : Int) (d2 : String),
        get_fault_code [⟨c1, d1⟩, ⟨c2, d2⟩] =
          .ok (true, toString c1 ++ "=" ++ d1 ++ ", " ++
            (toString c2 ++ "=" ++ d2))) := by
  refine ⟨?_, rfl, rfl, ?_⟩
  · intro messages r h
    match messages with
    | [] =>
      cases h
      simp
    | [m] =>
      have : r = (m.code != 0, if m.code != 0 then
          strJoin ", " [toString m.code ++ "=" ++ m.description] else "") := by
        cases h
        rfl
      subst this
      by_cases hm : m.code = 0
      · simp [hm]
      · simp [hm, bne_iff_ne]
    | a :: b :: rest =>
      cases h
      simp
  · intro c1 d1 c2 d2
    rfl

/-- Claim C2 (code bug): calling `report_default` on a freshly
constructed Reporter does not publish every channel — it raises
`KeyError("louvers")` when `report_state_louvers` reads the
`"louvers"` key that the `Status` dataclass never defines (the
repository's own `test_report_default` expects the call to complete
and emit signals). -/
theorem c2_report_default_raises_keyerror :
    report_default Status.default = .error (.keyError "louvers") := by
  rfl

/-- Claim C4: the in-position allow-lists are independent per
subsystem — with a no-error payload the azimuth classification reports
motion `(PARKED, True)` while the elevation classification reports
`(PARKED, False)` for the identical motion state, and the aperture
shutter's settled set holds exactly STOPPED and STOPPED_BRAKED (the
azimuth and elevation sets are also characterised). -/
theorem c4_in_position_allow_list_asymmetry :
    (∃ st2, check_errors_and_report_azimuth Status.default
        ⟨none, [⟨0, "No Errors"⟩], .single "PARKED"⟩ =
        .ok (st2, [⟨"state", "azimuth_axis", .pInt 2⟩,
                   ⟨"fault_code", "azimuth_axis", .pStr ""⟩,
                   ⟨"motion", "azimuth_axis", .pMotion .PARKED true⟩], [])) ∧
    (∃ st2, check_errors_and_report_elevation Status.default
        ⟨none, [⟨0, "No Errors"⟩], .single "PARKED"⟩ =
        .ok (st2, [⟨"state", "elevation_axis", .pInt 2⟩,
                   ⟨"fault_code", "elevation_axis", .pStr ""⟩,
                   ⟨"motion", "elevation_axis", .pMotion .PARKED false⟩], [])) ∧
    (∃ st2, check_errors_and_report_aperture_shutter Status.default
        ⟨none, [⟨0, "No Errors"⟩], .multiple ["PARKED"]⟩ =
        .ok (st2, [⟨"state", "aperture_shutter", .pInt 2⟩,
                   ⟨"fault_code", "aperture_shutter", .pStr ""⟩,
                   ⟨"motion", "aperture_shutter",
                     .pMotions [.PARKED] [false]⟩], [])) ∧
    (∀ m, azimuthInPositionStates.contains m = true ↔
        m = .STOPPED ∨ m = .STOPPED_BRAKED ∨ m = .CRAWLING ∨ m = .PARKED) ∧
    (∀ m, elevationInPositionStates.contains m = true ↔
        m = .STOPPED ∨ m = .STOPPED_BRAKED ∨ m = .CRAWLING) ∧
    (∀ m, shutterInPositionStates.contains m = true ↔
        m = .STOPPED ∨ m = .STOPPED_BRAKED) := by
  refine ⟨⟨_, rfl⟩, ⟨_, rfl⟩, ⟨_, rfl⟩, ?_, ?_, ?_⟩
  · intro m
    cases m <;> simp [azimuthInPositionStates]
  · intro m
    cases m <;> simp [elevationInPositionStates]
  · intro m
    cases m <;> simp [shutterInPositionStates]

/-- Witness for claim C3: the general boundary applied to the concrete
no-error message list. -/
theorem c3_fault_classification_boundary_witness :
    (false = true ↔
      ([(⟨0, "No Errors"⟩ : FaultMessage)] : List FaultMessage).length ≠ 1 ∨
        ∃ m, ([(⟨0, "No Errors"⟩ : FaultMessage)] : List FaultMessage) = [m] ∧
          m.code ≠ 0) :=
  c3_fault_classification_boundary.1 [⟨0, "No Errors"⟩] (false, "") rfl

/-- Claim C5: a raw motion-state label that names a member of the
public motion-state enumeration translates to that member directly; a
label in the static legacy table translates to its table target (in
particular `"STOPPED"` and `"STATIONARY"`); any other label yields no
state and exactly one logged error, and the azimuth classification for
a no-error payload with such a label completes without exception,
logging once and emitting no motion event. -/
theorem c5_motion_state_translation :
    (∀ s m, MotionState.fromName s = some m →
        translate_motion_state_if_necessary s = (some m, [])) ∧
    (∀ s m, MotionState.fromName s = none →
        motion_state_translations.lookup s = some m →
        translate_motion_state_if_necessary s = (some m, [])) ∧
    translate_motion_state_if_necessary "STOPPED" = (some .STOPPED, []) ∧
    translate_motion_state_if_necessary "STATIONARY" =
      (some .STOPPED_BRAKED, []) ∧
    (∀ s, MotionState.fromName s = none →
        motion_state_translations.lookup s = none →
        translate_motion_state_if_necessary s =
          (none, [.logError ("Unknown motion state: " ++ s)]) ∧
        ∀ (st : Status) (c : Int) (d : String),
          dictGet st.state "azimuthAxis" = some c →
          ∃ st2 evs,
            check_errors_and_report_azimuth st ⟨none, [⟨0, d⟩], .single s⟩ =
              .ok (st2, evs, [.logError ("Unknown motion state: " ++ s)]) ∧
            evs.all (fun e => e.signal != "motion") = true) := by
  refine ⟨?_, ?_, rfl, rfl, ?_⟩
  · intro s m h
    simp [translate_motion_state_if_necessary, h]
  · intro s m h1 h2
    simp [translate_motion_state_if_necessary, h1, h2]
  · intro s h1 h2
    have htr : translate_motion_state_if_necessary s =
        (none, [.logError ("Unknown motion state: " ++ s)]) := by
      simp [translate_motion_state_if_necessary, h1, h2]
    refine ⟨htr, ?_⟩
    intro st c d hc
    have hfc : get_fault_code [⟨0, d⟩] = .ok (false, "") := rfl
    have he1 : emit "state" "azimuth_axis" (.pInt 2) =
        .ok ⟨"state", "azimuth_axis", .pInt 2⟩ := rfl
    have he2 : report_fault_code_azimuth_axis "" =
        .ok [⟨"fault_code", "azimuth_axis", .pStr ""⟩] := rfl
    by_cases hcv : (c != (2 : Int)) = true
    · refine ⟨{ st with state := setKey st.state "azimuthAxis" 2 },
        [⟨"state", "azimuth_axis", .pInt 2⟩,
         ⟨"fault_code", "azimuth_axis", .pStr ""⟩], ?_, by decide⟩
      simp [check_errors_and_report_azimuth, hfc, report_state_azimuth_axis,
        check_system_state_and_report, hc, hcv, EnabledState.value, he1, he2,
        LabelVal.asSingle, htr]
    · have hcv2 : (c != (2 : Int)) = false := by
        simpa using hcv
      refine ⟨st, [⟨"fault_code", "azimuth_axis", .pStr ""⟩], ?_, by decide⟩
      simp [check_errors_and_report_azimuth, hfc, report_state_azimuth_axis,
        check_system_state_and_report, hc, hcv2, EnabledState.value, he2,
        LabelVal.asSingle, htr]

/-- Witness for claim C5: the unknown-label branch applied to the
concrete label `"FOO"` on the default status. -/
theorem c5_motion_state_translation_witness :
    translate_motion_state_if_necessary "FOO" =
      (none, [.logError ("Unknown motion state: " ++ "FOO")]) ∧
    ∀ (st : Status) (c : Int) (d : String),
      dictGet st.state "azimuthAxis" = some c →
      ∃ st2 evs,
        check_errors_and_report_azimuth st ⟨none, [⟨0, d⟩], .single "FOO"⟩ =
          .ok (st2, evs, [.logError ("Unknown motion state: " ++ "FOO")]) ∧
        evs.all (fun e => e.signal != "motion") = true :=
  c5_motion_state_translation.2.2.2.2 "FOO" rfl rfl

/-- Generic change-detection behaviour of
`_check_system_state_and_report` for a present state field and a
declared signal attribute: a first call with a differing value updates
and emits once, the repeated call is a pure no-op, and a further call
with a differing value emits again. -/
theorem state_report_change_detection_generic (st : Status)
    (sf sn sfl : String) (v c : Int)
    (hc : dictGet st.state sf = some c) (hne : c ≠ v)
    (hemit : ∀ w : Int, emit sn sfl (.pInt w) = .ok ⟨sn, sfl, .pInt w⟩) :
    ∃ st1 ev1,
      check_system_state_and_report st sf sn sfl v = .ok (st1, [ev1]) ∧
      dictGet st1.state sf = some v ∧
      check_system_state_and_report st1 sf sn sfl v = .ok (st1, []) ∧
      ∀ v2, v2 ≠ v → ∃ st2 ev2,
        check_system_state_and_report st1 sf sn sfl v2 =
          .ok (st2, [ev2]) := by
  have hb : (c != v) = true := bne_iff_ne.mpr hne
  have hv : dictGet (setKey st.state sf v) sf = some v :=
    dictGet_setKey_of_isSome v (by simp [hc])
  refine ⟨{ st with state := setKey st.state sf v }, ⟨sn, sfl, .pInt v⟩,
    ?_, ?_, ?_, ?_⟩
  · simp [check_system_state_and_report, hc, hb, hemit]
  · simpa using hv
  · simp [check_system_state_and_report, hv]
  · intro v2 hv2
    have hb2 : (v != v2) = true := bne_iff_ne.mpr (Ne.symm hv2)
    refine ⟨{ st with state := setKey (setKey st.state sf v) sf v2 },
      ⟨sn, sfl, .pInt v2⟩, ?_⟩
    simp [check_system_state_and_report, hv, hb2, hemit]

/-- Claim C1 (amended): for every discrete-state report operation and
every value v whose field key is present in `Status.state` — with the
key set fixed at construction — and which differs from the currently
stored value, the first call updates the field and emits exactly one
event, an immediately repeated call with v is a no-op leaving `Status`
and signals untouched, and a further call with a different value emits
exactly one more event (two in total).  (For a v equal to the stored
value, the code emits nothing at all; see the counterexample.) -/
theorem c1_state_change_detection_amended :
    ∀ op ∈ state_report_ops, ∀ (st : Status) (v c : Int),
      dictKeys st.state = dictKeys Status.default.state →
      dictGet st.state op.state_field = some c →
      c ≠ v →
      ∃ st1 ev1,
        check_system_state_and_report st op.state_field op.signal_name
            op.signal_field v = .ok (st1, [ev1]) ∧
        dictGet st1.state op.state_field = some v ∧
        check_system_state_and_report st1 op.state_field op.signal_name
            op.signal_field v = .ok (st1, []) ∧
        ∀ v2, v2 ≠ v → ∃ st2 ev2,
          check_system_state_and_report st1 op.state_field op.signal_name
              op.signal_field v2 = .ok (st2, [ev2]) := by
  intro op hop st v c hkeys hc hne
  have hmem : op.state_field ∈ dictKeys Status.default.state := by
    rw [← hkeys]
    exact mem_dictKeys_of_dictGet_some hc
  fin_cases hop
  · exact state_report_change_detection_generic st _ _ _ v c hc hne
      (fun w => rfl)
  · exact state_report_change_detection_generic st _ _ _ v c hc hne
      (fun w => rfl)
  · exact state_report_change_detection_generic st _ _ _ v c hc hne
      (fun w => rfl)
  · exact state_report_change_detection_generic st _ _ _ v c hc hne
      (fun w => rfl)
  · exact state_report_change_detection_generic st _ _ _ v c hc hne
      (fun w => rfl)
  · exact absurd hmem (by decide)
  · exact absurd hmem (by decide)
  · exact absurd hmem (by decide)
  · exact state_report_change_detection_generic st _ _ _ v c hc hne
      (fun w => rfl)
  · exact absurd hmem (by decide)

/-- Counterexample for claim C1 as stated: on a fresh Reporter the
brake bitmask field already holds the sentinel `-1`, so calling
`report_state_brake_engaged(-1)` twice in succession emits zero
events, not exactly one — each call is a no-op. -/
theorem c1_state_change_detection_counterexample :
    report_state_brake_engaged Status.default (-1) =
      .ok (Status.default, ([] : List Event)) ∧
    (([] : List Event) ++ []).length ≠ 1 :=
  ⟨rfl, by decide⟩

/-- Witness for claim C1 (amended): the brake-engaged operation on a
fresh status, reporting 0 over the stored sentinel -1. -/
theorem c1_state_change_detection_amended_witness :
    ∃ st1 ev1,
      check_system_state_and_report Status.default "brakeEngaged" "state"
          "brake_engaged" 0 = .ok (st1, [ev1]) ∧
      dictGet st1.state "brakeEngaged" = some 0 ∧
      check_system_state_and_report st1 "brakeEngaged" "state"
          "brake_engaged" 0 = .ok (st1, []) ∧
      ∀ v2, v2 ≠ 0 → ∃ st2 ev2,
        check_system_state_and_report st1 "brakeEngaged" "state"
            "brake_engaged" v2 = .ok (st2, [ev2]) :=
  c1_state_change_detection_amended
    ⟨"brakeEngaged", "state", "brake_engaged"⟩ (by decide)
    Status.default 0 (-1) rfl rfl (by decide)

/-- Claim C6: `report_capacitor_bank` publishes the `cbcs` event if and
only if the incoming mapping (after the voltage entry is popped)
differs from the stored `Status.capacitor_bank` under structural
dictionary comparison; on a difference the stored mapping is replaced,
on equality the status is left untouched and only the voltage telemetry
is emitted. -/
theorem c6_capacitor_bank_structural_equality :
    ∀ (st : Status) (cb : List (String × PyVal)) (v : PyVal),
      dictGet cb "dcBusVoltage" = some v →
      (pyDictEq st.capacitor_bank (eraseKey cb "dcBusVoltage") = false →
        report_capacitor_bank st cb =
          .ok ({ st with capacitor_bank := eraseKey cb "dcBusVoltage" },
               [⟨"telemetry", "cbcs_voltage", .pVal v⟩,
                ⟨"telemetry", "cbcs", .pDict (eraseKey cb "dcBusVoltage")⟩],
               eraseKey cb "dcBusVoltage")) ∧
      (pyDictEq st.capacitor_bank (eraseKey cb "dcBusVoltage") = true →
        report_capacitor_bank st cb =
          .ok (st, [⟨"telemetry", "cbcs_voltage", .pVal v⟩],
               eraseKey cb "dcBusVoltage")) := by
  intro st cb v hv
  have he1 : emit "telemetry" "cbcs_voltage" (.pVal v) =
      .ok ⟨"telemetry", "cbcs_voltage", .pVal v⟩ := rfl
  have he2 : ∀ d, emit "telemetry" "cbcs" (.pDict d) =
      .ok ⟨"telemetry", "cbcs", .pDict d⟩ := fun d => rfl
  constructor
  · intro hne
    simp [report_capacitor_bank, hv, he1, he2, hne]
  · intro heq
    simp [report_capacitor_bank, hv, he1, heq]

/-- Witness for claim C6: on the default status, a copy of the stored
mapping with one boolean of the `doorOpen` sub-array flipped (plus the
voltage entry) publishes the `cbcs` event and replaces the stored
mapping, while an untouched copy emits the voltage telemetry only. -/
theorem c6_capacitor_bank_structural_equality_witness :
    report_capacitor_bank Status.default
        (("dcBusVoltage", PyVal.vFloat (.lit 1)) ::
          setKey capacitorBankDefault "doorOpen" (.vBoolList [true, false])) =
      .ok ({ Status.default with
              capacitor_bank :=
                setKey capacitorBankDefault "doorOpen"
                  (.vBoolList [true, false]) },
           [⟨"telemetry", "cbcs_voltage", .pVal (.vFloat (.lit 1))⟩,
            ⟨"telemetry", "cbcs",
             .pDict (setKey capacitorBankDefault "doorOpen"
               (.vBoolList [true, false]))⟩],
           setKey capacitorBankDefault "doorOpen" (.vBoolList [true, false])) ∧
    report_capacitor_bank Status.default
        (("dcBusVoltage", PyVal.vFloat (.lit 1)) :: capacitorBankDefault) =
      .ok (Status.default,
           [⟨"telemetry", "cbcs_voltage", .pVal (.vFloat (.lit 1))⟩],
           capacitorBankDefault) :=
  ⟨(c6_capacitor_bank_structural_equality Status.default
      (("dcBusVoltage", PyVal.vFloat (.lit 1)) ::
        setKey capacitorBankDefault "doorOpen" (.vBoolList [true, false]))
      (.vFloat (.lit 1)) rfl).1 (by decide),
   (c6_capacitor_bank_structural_equality Status.default
      (("dcBusVoltage", PyVal.vFloat (.lit 1)) :: capacitorBankDefault)
      (.vFloat (.lit 1)) rfl).2 (by decide)⟩

/-- Claim C10: for a mapping containing `"dcBusVoltage"`,
`report_capacitor_bank` emits the voltage telemetry exactly once
(whether or not the deduplicated `cbcs` event fires), and the caller's
mapping is mutated by popping that key before the structural
comparison; for a mapping without the key the call raises `KeyError`
with nothing emitted and the status untouched. -/
theorem c10_capacitor_bank_frame_effects :
    (∀ (st : Status) (cb : List (String × PyVal)) (v : PyVal),
      dictGet cb "dcBusVoltage" = some v →
      ∃ st2 evs mutated,
        report_capacitor_bank st cb = .ok (st2, evs, mutated) ∧
        (evs.filter (fun e => e.field == "cbcs_voltage")).length = 1 ∧
        evs.head? = some ⟨"telemetry", "cbcs_voltage", .pVal v⟩ ∧
        mutated = eraseKey cb "dcBusVoltage" ∧
        dictGet mutated "dcBusVoltage" = none) ∧
    (∀ (st : Status) (cb : List (String × PyVal)),
      dictGet cb "dcBusVoltage" = none →
      report_capacitor_bank st cb = .error (.keyError "dcBusVoltage")) := by
  constructor
  · intro st cb v hv
    have he1 : emit "telemetry" "cbcs_voltage" (.pVal v) =
        .ok ⟨"telemetry", "cbcs_voltage", .pVal v⟩ := rfl
    have he2 : ∀ d, emit "telemetry" "cbcs" (.pDict d) =
        .ok ⟨"telemetry", "cbcs", .pDict d⟩ := fun d => rfl
    by_cases hd : pyDictEq st.capacitor_bank (eraseKey cb "dcBusVoltage") = true
    · refine ⟨st, [⟨"telemetry", "cbcs_voltage", .pVal v⟩],
        eraseKey cb "dcBusVoltage", ?_, rfl, rfl, rfl,
        dictGet_eraseKey_self cb "dcBusVoltage"⟩
      simp [report_capacitor_bank, hv, he1, hd]
    · have hd2 : pyDictEq st.capacitor_bank (eraseKey cb "dcBusVoltage") =
          false := by
        simpa using hd
      refine ⟨{ st with capacitor_bank := eraseKey cb "dcBusVoltage" },
        [⟨"telemetry", "cbcs_voltage", .pVal v⟩,
         ⟨"telemetry", "cbcs", .pDict (eraseKey cb "dcBusVoltage")⟩],
        eraseKey cb "dcBusVoltage", ?_, rfl, rfl, rfl,
        dictGet_eraseKey_self cb "dcBusVoltage"⟩
      simp [report_capacitor_bank, hv, he1, he2, hd2]
  · intro st cb hv
    simp [report_capacitor_bank, hv]

/-- Witness for claim C10: the default status with an identical copy of
the stored mapping plus the voltage entry (key present), and the bare
default mapping (key absent). -/
theorem c10_capacitor_bank_frame_effects_witness :
    (∃ st2 evs mutated,
      report_capacitor_bank Status.default
          (("dcBusVoltage", PyVal.vFloat (.lit 1)) :: capacitorBankDefault) =
        .ok (st2, evs, mutated) ∧
      (evs.filter (fun e => e.field == "cbcs_voltage")).length = 1 ∧
      evs.head? = some ⟨"telemetry", "cbcs_voltage",
        .pVal (.vFloat (.lit 1))⟩ ∧
      mutated = eraseKey (("dcBusVoltage", PyVal.vFloat (.lit 1)) ::
        capacitorBankDefault) "dcBusVoltage" ∧
      dictGet mutated "dcBusVoltage" = none) ∧
    report_capacitor_bank Status.default capacitorBankDefault =
      .error (.keyError "dcBusVoltage") :=
  ⟨c10_capacitor_bank_frame_effects.1 Status.default
      (("dcBusVoltage", PyVal.vFloat (.lit 1)) :: capacitorBankDefault)
      (.vFloat (.lit 1)) rfl,
   c10_capacitor_bank_frame_effects.2 Status.default capacitorBankDefault rfl⟩

/-- Claim C7: a failed collaborator status request (the `ValueError` it
raises on failure) is caught inside `request_llc_status_and_report`,
logged once, and the poll cycle is skipped with no report and no status
change; the periodic polling loop carries on with the remaining cycles
exactly as if the failed cycle had not been scheduled, and in
particular survives any number of consecutive failures (each subsystem
runs its own independent task over its own fetch outcomes). -/
theorem c7_fetch_failure_skips_cycle :
    (∀ (st : Status) (llc : LlcName),
      request_llc_status_and_report st llc .valueError =
        .ok (st, [], [fetchFailureLog llc])) ∧
    (∀ (st : Status) (llc : LlcName) (rest : List FetchResult),
      one_periodic_task_run st llc (.valueError :: rest) =
        ((one_periodic_task_run st llc rest).1,
         (one_periodic_task_run st llc rest).2.1,
         fetchFailureLog llc :: (one_periodic_task_run st llc rest).2.2)) ∧
    (∀ (st : Status) (llc : LlcName) (n : Nat),
      one_periodic_task_run st llc (List.replicate n .valueError) =
        (st, [], List.replicate n (fetchFailureLog llc))) := by
  refine ⟨fun st llc => rfl, ?_, ?_⟩
  · intro st llc rest
    simp [one_periodic_task_run, request_llc_status_and_report]
  · intro st llc n
    induction n with
    | zero => rfl
    | succ k ih =>
      simp [List.replicate, one_periodic_task_run,
        request_llc_status_and_report, ih]

/-- Counterexample for claim C8 as stated: `report_interlocks` replaces
`Status.interlocks` wholesale, so calling it with the one-element list
`[True]` on a fresh status shrinks the stored sequence from the 16
monitored sensors to length 1. -/
theorem c8_interlocks_length_counterexample :
    report_interlocks Status.default [true] =
      .ok ({ Status.default with interlocks := [true] },
           [⟨"interlock", "interlock", .pBools [true]⟩]) ∧
    ([true] : List Bool).length ≠ Status.default.interlocks.length :=
  ⟨rfl, by decide⟩

/-- Claim C8 (amended): every status-mutating Reporter operation other
than `report_interlocks` leaves `Status.interlocks` itself unchanged
(the pure emission operations never touch the status at all), and
`report_interlocks` preserves the length exactly when it is called with
a list of the current length — in general it replaces the stored
sequence with its argument. -/
theorem c8_interlocks_length_amended :
    (∀ (st : Status) (sf sn sfl : String) (v : Int) (st2 : Status)
        (evs : List Event),
        check_system_state_and_report st sf sn sfl v = .ok (st2, evs) →
        st2.interlocks = st.interlocks) ∧
    (∀ (st : Status) (subsystem : SubSystemId) (mode : OperationalMode)
        (st2 : Status) (evs : List Event),
        report_operational_mode st subsystem mode = .ok (st2, evs) →
        st2.interlocks = st.interlocks) ∧
    (∀ (st : Status) (cb : List (String × PyVal)) (st2 : Status)
        (evs : List Event) (mutated : List (String × PyVal)),
        report_capacitor_bank st cb = .ok (st2, evs, mutated) →
        st2.interlocks = st.interlocks) ∧
    (∀ (st : Status) (config : List (String × PyFloat)) (st2 : Status)
        (evs : List Event),
        report_config_azimuth st config = .ok (st2, evs) →
        st2.interlocks = st.interlocks) ∧
    (∀ (st : Status) (config : List (String × PyFloat)) (st2 : Status)
        (evs : List Event),
        report_config_elevation st config = .ok (st2, evs) →
        st2.interlocks = st.interlocks) ∧
    (∀ (st : Status) (interlocks : List Bool) (st2 : Status)
        (evs : List Event),
        interlocks.length = st.interlocks.length →
        report_interlocks st interlocks = .ok (st2, evs) →
        st2.interlocks.length = st.interlocks.length) := by
  refine ⟨?_, ?_, ?_, ?_, ?_, ?_⟩
  · intro st sf sn sfl v st2 evs h
    unfold check_system_state_and_report at h
    split at h
    · simp at h
    · split at h
      · split at h
        · simp at h
        · simp only [Except.ok.injEq, Prod.mk.injEq] at h
          obtain ⟨h1, _⟩ := h
          subst h1
          rfl
      · simp only [Except.ok.injEq, Prod.mk.injEq] at h
        obtain ⟨h1, _⟩ := h
        subst h1
        rfl
  · intro st subsystem mode st2 evs h
    unfold report_operational_mode at h
    dsimp only at h
    split at h
    · simp at h
    · split at h
      · split at h
        · simp at h
        · simp only [Except.ok.injEq, Prod.mk.injEq] at h
          obtain ⟨h1, _⟩ := h
          subst h1
          rfl
      · simp only [Except.ok.injEq, Prod.mk.injEq] at h
        obtain ⟨h1, _⟩ := h
        subst h1
        rfl
  · intro st cb st2 evs mutated h
    unfold report_capacitor_bank at h
    dsimp only at h
    split at h
    · simp at h
    · split at h
      · simp at h
      · split at h
        · split at h
          · simp at h
          · simp only [Except.ok.injEq, Prod.mk.injEq] at h
            obtain ⟨h1, _⟩ := h
            subst h1
            rfl
        · simp only [Except.ok.injEq, Prod.mk.injEq] at h
          obtain ⟨h1, _⟩ := h
          subst h1
          rfl
  · intro st config st2 evs h
    unfold report_config_azimuth at h
    split at h
    · split at h
      · simp at h
      · simp only [Except.ok.injEq, Prod.mk.injEq] at h
        obtain ⟨h1, _⟩ := h
        subst h1
        rfl
    · simp only [Except.ok.injEq, Prod.mk.injEq] at h
      obtain ⟨h1, _⟩ := h
      subst h1
      rfl
  · intro st config st2 evs h
    unfold report_config_elevation at h
    split at h
    · split at h
      · simp at h
      · simp only [Except.ok.injEq, Prod.mk.injEq] at h
        obtain ⟨h1, _⟩ := h
        subst h1
        rfl
    · simp only [Except.ok.injEq, Prod.mk.injEq] at h
      obtain ⟨h1, _⟩ := h
      subst h1
      rfl
  · intro st interlocks st2 evs hlen h
    unfold report_interlocks at h
    split at h
    · split at h
      · simp at h
      · simp only [Except.ok.injEq, Prod.mk.injEq] at h
        obtain ⟨h1, _⟩ := h
        subst h1
        simpa using hlen
    · simp only [Except.ok.injEq, Prod.mk.injEq] at h
      obtain ⟨h1, _⟩ := h
      subst h1
      rfl

/-- Witness for claim C8 (amended): `report_interlocks` on the default
status with a same-length (16-element) all-true list keeps the stored
length. -/
theorem c8_interlocks_length_amended_witness :
    ({ Status.default with
        interlocks := List.replicate 16 true } : Status).interlocks.length =
      Status.default.interlocks.length :=
  c8_interlocks_length_amended.2.2.2.2.2 Status.default
    (List.replicate 16 true)
    { Status.default with interlocks := List.replicate 16 true }
    [⟨"interlock", "interlock", .pBools (List.replicate 16 true)⟩]
    (by decide) rfl

end MTDomeGui
